import Mathlib

/-! Shallow embedding of the mug_control repository (`src/ble_tool.py` and
`src/temp.devieslist.py`).  Temperatures are modelled as exact rationals,
Python byte strings as lists of naturals below 256, and the effectful parts
of the scripts as pure functions over explicit oracle inputs (connection
success, read/write success, key presses). -/

/-- Byte-order argument of Python `int.to_bytes` / `int.from_bytes`. -/
inductive ByteOrder
  | little
  | big
deriving DecidableEq

/-- Python `int(q)` applied to an exact rational: truncation toward zero, as
in `int(temperature_celsius * 100)` of `set_target_temperature`
(`ble_tool.py` line 207). -/
def pyInt (q : ℚ) : ℤ := q.num.tdiv (q.den : ℤ)

/-- Python `n.to_bytes(2, byteorder)` (`ble_tool.py` line 210): two bytes,
or `none` for the `OverflowError` raised when `n` is negative or does not
fit in 16 bits. -/
def intToBytes2 (order : ByteOrder) (n : ℤ) : Option (List ℕ) :=
  if 0 ≤ n ∧ n < 65536 then
    some (match order with
      | ByteOrder.little => [n.toNat % 256, n.toNat / 256]
      | ByteOrder.big => [n.toNat / 256, n.toNat % 256])
  else none

/-- Python `int.from_bytes(bs, byteorder)` (`ble_tool.py` lines 135, 145,
252), total over byte lists of any length. -/
def intFromBytes (order : ByteOrder) (bs : List ℕ) : ℕ :=
  match order with
  | ByteOrder.little => bs.foldr (fun b acc => acc * 256 + b) 0
  | ByteOrder.big => bs.foldl (fun acc b => acc * 256 + b) 0

/-- Temperature decoding used throughout the scripts:
`int.from_bytes(value, byteorder) / 100.0`. -/
def decodeTemp (order : ByteOrder) (bs : List ℕ) : ℚ :=
  (intFromBytes order bs : ℚ) / 100

/-- Little-endian decoding, the read path of the control loop
(`ble_tool.py` lines 135 and 145). -/
def decodeLE (bs : List ℕ) : ℚ := decodeTemp ByteOrder.little bs

/-- Temperature encoding of `set_target_temperature` (`ble_tool.py` lines
207-210), parametrised by the byte order handed to `to_bytes` (the script
passes `little`). -/
def encodeTemp (order : ByteOrder) (v : ℚ) : Option (List ℕ) :=
  intToBytes2 order (pyInt (v * 100))

/-- Function `set_target_temperature` (`ble_tool.py` lines 203-220): the
returned boolean together with the list of payloads passed to
`write_gatt_char`.  An `OverflowError` from `to_bytes` is caught by the
`except` clause, so on a codec failure the function returns `False` having
written nothing. -/
def set_target_temperature (v : ℚ) : Bool × List (List ℕ) :=
  match encodeTemp ByteOrder.little v with
  | some bs => (true, [bs])
  | none => (false, [])

/-- Characteristic property flags the scripts test for
(membership of `read`, `write`, `write-without-response` in
`ch.properties`). -/
structure CharProps where
  readable : Bool
  writable : Bool
  writableNoResp : Bool
deriving DecidableEq

/-- Observable actions of one control-loop iteration of
`connect_and_monitor` (`ble_tool.py` lines 127-194).  `writeAttempt`
records a `write_gatt_char` call with its payload and `response` flag;
`writeFailureNotice` the warning printed by a write `except` clause;
`noWriteSupportNotice` the warning at line 172.  `persistentFault` is the
specification's escalation event, part of the vocabulary so that its
occurrences can be counted; the script never emits it. -/
inductive LoopEvent
  | writeAttempt (payload : List ℕ) (withResponse : Bool)
  | writeFailureNotice
  | noWriteSupportNotice
  | persistentFault
deriving DecidableEq

/-- Reading one temperature characteristic (`ble_tool.py` lines 131-149):
the result is a number only when the characteristic lists `read` and the
read does not raise; the strings `"Error"` and `"Not readable"` both fail
the later `isinstance` check and are collapsed to `none`. -/
def readChar (props : CharProps) (readOk : Bool) (stored : List ℕ) : Option ℚ :=
  if props.readable then (if readOk then some (decodeLE stored) else none) else none

/-- Payload `new_target_bytes = bytes([0x88, 0x13])` of the heating-on
write (`ble_tool.py` line 162). -/
def new_target_bytes : List ℕ := [0x88, 0x13]

/-- Payload `off_bytes = bytes([0x00, 0x00])` of the heating-off write
(`ble_tool.py` line 182). -/
def off_bytes : List ℕ := [0x00, 0x00]

/-- Result of one loop iteration: the emitted events and the setpoint bytes
the device holds afterwards (a successful write stores its payload
verbatim; otherwise the stored bytes are unchanged). -/
structure IterOutcome where
  events : List LoopEvent
  deviceSetpoint : List ℕ
deriving DecidableEq

/-- One iteration of the monitoring loop (`ble_tool.py` lines 127-191),
restricted to its observable behaviour.  Control logic (lines 154-188)
runs only when both reads produced numbers; `drink_temp < 40.0` leads to
the heating-on write of `new_target_bytes` guarded by
`target_temp != 50.0` and by `"write" in target_char.properties`;
`drink_temp > 40.0` leads to the heating-off write of `off_bytes` guarded
by `target_temp != 0.0` only (no property check, lines 180-183); both
writes pass `response=True`.  A raising write is caught and reported by the
matching `except` clause. -/
def controlIteration (tprops dprops : CharProps) (treadOk dreadOk writeOk : Bool)
    (setpointStored drinkStored : List ℕ) : IterOutcome :=
  match readChar dprops dreadOk drinkStored, readChar tprops treadOk setpointStored with
  | some drink_temp, some target_temp =>
    if drink_temp < 40 then
      if target_temp ≠ 50 then
        if tprops.writable then
          if writeOk then
            ⟨[LoopEvent.writeAttempt new_target_bytes true], new_target_bytes⟩
          else
            ⟨[LoopEvent.writeAttempt new_target_bytes true, LoopEvent.writeFailureNotice],
              setpointStored⟩
        else ⟨[LoopEvent.noWriteSupportNotice], setpointStored⟩
      else ⟨[], setpointStored⟩
    else if drink_temp > 40 then
      if target_temp ≠ 0 then
        if writeOk then
          ⟨[LoopEvent.writeAttempt off_bytes true], off_bytes⟩
        else
          ⟨[LoopEvent.writeAttempt off_bytes true, LoopEvent.writeFailureNotice],
            setpointStored⟩
      else ⟨[], setpointStored⟩
    else ⟨[], setpointStored⟩
  | _, _ => ⟨[], setpointStored⟩

/-- Several consecutive loop iterations with an unchanged drink reading:
the setpoint bytes read in iteration `k+1` are those the device holds after
iteration `k`.  Each list element gives one iteration's oracles
`(targetReadOk, drinkReadOk, writeOk)`. -/
def runIterations (tprops dprops : CharProps) (drinkStored : List ℕ) :
    List (Bool × Bool × Bool) → List ℕ → List LoopEvent
  | [], _ => []
  | o :: rest, sp =>
    (controlIteration tprops dprops o.1 o.2.1 o.2.2 sp drinkStored).events ++
      runIterations tprops dprops drinkStored rest
        (controlIteration tprops dprops o.1 o.2.1 o.2.2 sp drinkStored).deviceSetpoint

/-- Event classifiers used to count occurrences. -/
def isWriteAttempt : LoopEvent → Bool
  | LoopEvent.writeAttempt _ _ => true
  | _ => false

/-- Classifier for the per-failure warning prints. -/
def isFailureNotice : LoopEvent → Bool
  | LoopEvent.writeFailureNotice => true
  | _ => false

/-- Classifier for the missing-write-support warning print. -/
def isNoSupportNotice : LoopEvent → Bool
  | LoopEvent.noWriteSupportNotice => true
  | _ => false

/-- Classifier for the specification's persistent-fault event. -/
def isPersistentFault : LoopEvent → Bool
  | LoopEvent.persistentFault => true
  | _ => false

/-- Number of events of a given kind in an event trace. -/
def countEvents (p : LoopEvent → Bool) (evs : List LoopEvent) : ℕ :=
  (evs.filter p).length

/-- How the monitoring loop of `connect_and_monitor` ends: the peripheral
drops the connection (`client.is_connected` turns false), the task is
cancelled (`asyncio.CancelledError`, caught at line 193), or an exception
escapes the loop body. -/
inductive LoopEnd
  | disconnected
  | cancelled
  | transportError
deriving DecidableEq

/-- Oracle inputs determining one run of `connect_and_monitor`:
whether `BleakClient.__aenter__` (the connect) succeeds, the
`client.is_connected` check at line 89, which characteristics the session
exposes, and how the monitoring loop ends. -/
structure SessionConfig where
  enterOk : Bool
  isConnected : Bool
  hasTarget : Bool
  hasDrink : Bool
  loopEnd : LoopEnd

/-- Observable outcome of one run of `connect_and_monitor`: number of
disconnects (`BleakClient.__aexit__` executions), number of
characteristic-not-found warnings, whether the monitoring loop was
entered, and the returned boolean. -/
structure RunResult where
  disconnects : ℕ
  warnings : ℕ
  loopRan : Bool
  returned : Bool
deriving DecidableEq

/-- Control-flow skeleton of `connect_and_monitor` (`ble_tool.py` lines
83-200).  The `async with BleakClient(...)` block runs `__aexit__`
(the disconnect) exactly when `__aenter__` succeeded, whether the body
returns, raises, or is cancelled; a failed connect raises out of
`__aenter__`, reaches the outer `except`, and returns `False` with no
disconnect.  A missing characteristic prints one warning and returns
`True` from inside the block without entering the loop (lines 114-120). -/
def connect_and_monitor (cfg : SessionConfig) : RunResult :=
  if cfg.enterOk then
    if cfg.isConnected then
      if cfg.hasTarget then
        if cfg.hasDrink then
          match cfg.loopEnd with
          | LoopEnd.disconnected => ⟨1, 0, true, true⟩
          | LoopEnd.cancelled => ⟨1, 0, true, true⟩
          | LoopEnd.transportError => ⟨1, 0, true, false⟩
        else ⟨1, 1, false, true⟩
      else ⟨1, 1, false, true⟩
    else ⟨1, 0, false, false⟩
  else ⟨0, 0, false, false⟩

/-- Default display name used by the scan loop. -/
def unknownName : String := "Unknown"

/-- Python `device.name or 'Unknown'` (`temp.devieslist.py` line 174):
`or` treats both `None` and the empty string as falsy. -/
def pyNameOr (n : Option String) (dflt : String) : String :=
  match n with
  | none => dflt
  | some s => if s.isEmpty then dflt else s

/-- An advertisement as delivered by the scanner: optional display name and
stable address. -/
structure AdvDevice where
  name : Option String
  address : String
deriving DecidableEq

/-- Entry of the `devices` list built by `scan_and_select_device`
(`temp.devieslist.py` lines 173-178); `discovered` is the scan-batch
timestamp. -/
structure DeviceInfo where
  name : String
  address : String
  discovered : ℕ
deriving DecidableEq

/-- State of the scan loop: the `devices` list and the `seen_addresses`
set. -/
structure ScanState where
  devices : List DeviceInfo
  seen : List String
deriving DecidableEq

/-- Body of the per-device loop in `scan_and_select_device`
(`temp.devieslist.py` lines 171-181): a device whose address was already
seen is skipped entirely; otherwise an entry with the current scan time is
appended and the address recorded. -/
def addDevice (t : ℕ) (st : ScanState) (d : AdvDevice) : ScanState :=
  if d.address ∈ st.seen then st
  else ⟨st.devices ++ [⟨pyNameOr d.name unknownName, d.address, t⟩], st.seen ++ [d.address]⟩

/-- One scan batch at time `t` (`temp.devieslist.py` lines 171-181). -/
def processScan (t : ℕ) (batch : List AdvDevice) (st : ScanState) : ScanState :=
  batch.foldl (addDevice t) st

/-- Key presses recognised by `interactive_menu`; `other` covers every key
the function ignores. -/
inductive MenuKey
  | up
  | down
  | enter
  | quit
  | refresh
  | digit (n : ℕ)
  | other
deriving DecidableEq

/-- Index update for the navigation keys of `interactive_menu`
(`temp.devieslist.py` lines 126-129): `w`/up is `max(0, i - 1)`, `s`/down
is `min(len(devices) - 1, i + 1)`; every other key leaves the index
unchanged. -/
def navStep (n : ℕ) (i : ℤ) : MenuKey → ℤ
  | MenuKey.up => max 0 (i - 1)
  | MenuKey.down => min ((n : ℤ) - 1) (i + 1)
  | _ => i

/-- Key-processing loop of `interactive_menu` (`temp.devieslist.py` lines
109-146), fed a finite key sequence; `q` and exhausting the keys yield no
selection, Enter returns `devices[selected_index]` under the bound check of
line 121, a digit key returns `devices[num]` under the check of line 135. -/
def menuLoop {α : Type} (devs : List α) : ℤ → List MenuKey → Option α
  | _, [] => none
  | _, MenuKey.quit :: _ => none
  | i, MenuKey.enter :: ks =>
    if 0 ≤ i ∧ i < (devs.length : ℤ) then devs.get? i.toNat else menuLoop devs i ks
  | i, MenuKey.digit d :: ks =>
    if d < devs.length then devs.get? d else menuLoop devs i ks
  | i, k :: ks => menuLoop devs (navStep devs.length i k) ks

/-- Function `interactive_menu` (`temp.devieslist.py` lines 102-146):
returns `None` for an empty device list, otherwise starts the loop at
`selected_index = 0`. -/
def interactive_menu {α : Type} (devs : List α) (keys : List MenuKey) : Option α :=
  if devs.isEmpty then none else menuLoop devs 0 keys

/-! Helper lemmas about the codec. -/

/-- Truncation of a nonnegative integer-valued rational is the identity. -/
theorem pyInt_natCast (k : ℕ) : pyInt (k : ℚ) = k := by
  simp [pyInt, Int.tdiv_one]

/-- A 16-bit value encodes to two bytes that decode back to it, for either
byte order. -/
theorem intToBytes2_roundtrip (order : ByteOrder) (n : ℤ) (h0 : 0 ≤ n)
    (h1 : n < 65536) :
    ∃ bs, intToBytes2 order n = some bs ∧ bs.length = 2 ∧
      (intFromBytes order bs : ℤ) = n := by
  cases order with
  | little =>
    refine ⟨[n.toNat % 256, n.toNat / 256], ?_, rfl, ?_⟩
    · simp [intToBytes2, h0, h1]
    · simp only [intFromBytes, List.foldr_cons, List.foldr_nil]
      omega
  | big =>
    refine ⟨[n.toNat / 256, n.toNat % 256], ?_, rfl, ?_⟩
    · simp [intToBytes2, h0, h1]
    · simp only [intFromBytes, List.foldl_cons, List.foldl_nil]
      omega

/-- The encoder rejects exactly the scaled values outside the 16-bit range. -/
theorem intToBytes2_eq_none_iff (order : ByteOrder) (n : ℤ) :
    intToBytes2 order n = none ↔ (n < 0 ∨ 65535 < n) := by
  unfold intToBytes2
  split_ifs with h
  · constructor
    · intro hc
      exact absurd hc (by simp)
    · intro hc
      exact absurd hc (by omega)
  · constructor
    · intro _
      omega
    · intro _
      rfl

/-- Claim C2: for every in-range temperature `v = k / 100` with
`k ≤ 65535`, decoding the byte pair produced by encoding `v` yields a value
within 0.01 of `v`, for the little-endian and the big-endian byte-order
policy independently (the encoder scales by 100 to a 16-bit integer, the
decoder divides the 16-bit integer by 100). -/
theorem c2_codec_roundtrip (k : ℕ) (hk : k ≤ 65535) (order : ByteOrder) :
    ∃ bs, encodeTemp order ((k : ℚ) / 100) = some bs ∧
      |decodeTemp order bs - (k : ℚ) / 100| ≤ 1 / 100 := by
  have h0 : (0 : ℤ) ≤ (k : ℤ) := by omega
  have h1 : (k : ℤ) < 65536 := by omega
  obtain ⟨bs, hbs, hlen, hval⟩ := intToBytes2_roundtrip order (k : ℤ) h0 h1
  have hmul : ((k : ℚ) / 100) * 100 = (k : ℚ) := div_mul_cancel₀ _ (by norm_num)
  refine ⟨bs, ?_, ?_⟩
  · rw [encodeTemp, hmul, pyInt_natCast]
    exact hbs
  · have hq : (intFromBytes order bs : ℚ) = (k : ℚ) := by exact_mod_cast hval
    rw [decodeTemp, hq, sub_self, abs_zero]
    norm_num

/-- Witness for C2 at `v = 50.00` (scaled value 5000), both byte orders. -/
theorem c2_codec_roundtrip_witness :
    (∃ bs, encodeTemp ByteOrder.little (((5000 : ℕ) : ℚ) / 100) = some bs ∧
      |decodeTemp ByteOrder.little bs - ((5000 : ℕ) : ℚ) / 100| ≤ 1 / 100) ∧
    (∃ bs, encodeTemp ByteOrder.big (((5000 : ℕ) : ℚ) / 100) = some bs ∧
      |decodeTemp ByteOrder.big bs - ((5000 : ℕ) : ℚ) / 100| ≤ 1 / 100) :=
  ⟨c2_codec_roundtrip 5000 (by norm_num) ByteOrder.little,
   c2_codec_roundtrip 5000 (by norm_num) ByteOrder.big⟩

/-- Claim C7 counterexample: `v = -0.005` is negative, yet the encoder does
not fail: Python `int()` truncates `-0.5` to `0`, which `to_bytes`
accepts, so the claim's "fails exactly when `v` is negative or the scaled
integer exceeds 65535" is false at this input. -/
theorem c7_counterexample :
    ((-1 : ℚ) / 200 < 0) ∧
    encodeTemp ByteOrder.little ((-1 : ℚ) / 200) = some [0, 0] := by
  refine ⟨by norm_num, ?_⟩
  have hm : ((-1 : ℚ) / 200 * 100) = -1 / 2 := by norm_num
  have hn : ((-1 : ℚ) / 2).num = -1 := by norm_num
  have hd : ((-1 : ℚ) / 2).den = 2 := by norm_num
  have h : pyInt ((-1 : ℚ) / 200 * 100) = 0 := by
    rw [hm]
    simp only [pyInt, hn, hd]
    decide
  simp only [encodeTemp, h]
  decide

/-- Claim C7 (amended): the encoder fails exactly when the truncated scaled
integer `int(v * 100)` is negative or exceeds 65535 (so `v` in
`(-0.01, 0)` succeeds, encoding 0); a failure leaves
`set_target_temperature` returning `False` with no bytes written; and
whenever the truncated scaled integer lies in `[0, 65535]` the encoder
succeeds and produces exactly two bytes. -/
theorem c7_amended_encode_range (v : ℚ) :
    (encodeTemp ByteOrder.little v = none ↔
      (pyInt (v * 100) < 0 ∨ 65535 < pyInt (v * 100))) ∧
    (encodeTemp ByteOrder.little v = none →
      set_target_temperature v = (false, [])) ∧
    ((0 ≤ pyInt (v * 100) ∧ pyInt (v * 100) ≤ 65535) →
      ∃ bs, encodeTemp ByteOrder.little v = some bs ∧ bs.length = 2) := by
  refine ⟨?_, ?_, ?_⟩
  · rw [encodeTemp]
    exact intToBytes2_eq_none_iff ByteOrder.little (pyInt (v * 100))
  · intro hnone
    simp [set_target_temperature, hnone]
  · rintro ⟨hlo, hhi⟩
    obtain ⟨bs, hbs, hlen, -⟩ :=
      intToBytes2_roundtrip ByteOrder.little (pyInt (v * 100)) hlo (by omega)
    exact ⟨bs, hbs, hlen⟩

/-- Witness for C7 (amended) at `v = 700` (scaled value 70000, out of
range): the single operation fails and nothing is written. -/
theorem c7_witness : set_target_temperature (700 : ℚ) = (false, []) := by
  apply (c7_amended_encode_range 700).2.1
  have h : (700 : ℚ) * 100 = ((70000 : ℕ) : ℚ) := by norm_num
  simp only [encodeTemp, h, pyInt_natCast]
  decide

/-! Helper lemmas about the control loop's fixed payloads. -/

/-- The heating-on payload decodes, little-endian, to exactly 50. -/
theorem decodeLE_new_target_bytes : decodeLE new_target_bytes = 50 := by
  norm_num [decodeLE, decodeTemp, intFromBytes, new_target_bytes]

/-- The heating-off payload decodes, little-endian, to exactly 0. -/
theorem decodeLE_off_bytes : decodeLE off_bytes = 0 := by
  norm_num [decodeLE, decodeTemp, intFromBytes, off_bytes]

/-- Claim C1 counterexample: an iteration in the claim's scope — both
temperatures read as numbers (readable characteristics, successful reads),
measured 35.00 below the threshold, device setpoint 30.00 other than 50 —
but with a readable-but-non-writable setpoint characteristic: the loop
issues ZERO writes (lines 166-172 skip the write and print a warning),
while the claim demands exactly one. -/
theorem c1_counterexample :
    countEvents isWriteAttempt
      (controlIteration ⟨true, false, false⟩ ⟨true, false, false⟩ true true true
        [0xB8, 0x0B] [0xAC, 0x0D]).events = 0 ∧
    (controlIteration ⟨true, false, false⟩ ⟨true, false, false⟩ true true true
        [0xB8, 0x0B] [0xAC, 0x0D]).events = [LoopEvent.noWriteSupportNotice] ∧
    decodeLE [0xAC, 0x0D] < 40 ∧ decodeLE [0xB8, 0x0B] ≠ 50 ∧
    (⟨true, false, false⟩ : CharProps).readable = true := by
  refine ⟨?_, ?_, ?_, ?_, rfl⟩ <;>
    norm_num [controlIteration, readChar, countEvents, isWriteAttempt,
      decodeLE, decodeTemp, intFromBytes]

/-- Claim C1 (amended): in a loop iteration where both temperatures were
read as numbers: a measured value below 40 with a device setpoint other
than 50 issues exactly one write — whose payload decodes to the maximum
setpoint 50 — when the setpoint characteristic advertises the
acknowledged-write property, and otherwise zero writes with a
no-write-support warning instead; a measured value above 40 with a device
setpoint other than 0 issues exactly one write, whose payload decodes to
the minimum setpoint 0, with no property check on this path; a measured
value equal to the threshold issues no write; and a second iteration with
the same measured value, against the setpoint bytes the device holds after
the first iteration, issues zero writes. -/
theorem c1_hysteresis_control (tprops dprops : CharProps) (sp dk : List ℕ)
    (htr : tprops.readable = true) (hdr : dprops.readable = true) :
    (decodeLE dk < 40 → decodeLE sp ≠ 50 → tprops.writable = true →
      (controlIteration tprops dprops true true true sp dk).events
        = [LoopEvent.writeAttempt new_target_bytes true] ∧
      decodeLE new_target_bytes = 50) ∧
    (decodeLE dk < 40 → decodeLE sp ≠ 50 → tprops.writable = false →
      (controlIteration tprops dprops true true true sp dk).events
        = [LoopEvent.noWriteSupportNotice]) ∧
    (40 < decodeLE dk → decodeLE sp ≠ 0 →
      (controlIteration tprops dprops true true true sp dk).events
        = [LoopEvent.writeAttempt off_bytes true] ∧
      decodeLE off_bytes = 0) ∧
    (decodeLE dk = 40 →
      (controlIteration tprops dprops true true true sp dk).events = []) ∧
    countEvents isWriteAttempt
      (controlIteration tprops dprops true true true
        (controlIteration tprops dprops true true true sp dk).deviceSetpoint dk).events
      = 0 := by
  refine ⟨?_, ?_, ?_, ?_, ?_⟩
  · intro h1 h2 htw
    refine ⟨?_, decodeLE_new_target_bytes⟩
    simp [controlIteration, readChar, htr, hdr, htw, h1, h2]
  · intro h1 h2 htw
    simp [controlIteration, readChar, htr, hdr, htw, h1, h2]
  · intro h1 h2
    have hnl : ¬ decodeLE dk < 40 := by linarith
    refine ⟨?_, decodeLE_off_bytes⟩
    simp [controlIteration, readChar, htr, hdr, h1, h2, hnl]
  · intro h1
    simp [controlIteration, readChar, htr, hdr, h1]
  · rcases lt_trichotomy (decodeLE dk) 40 with hlt | heq | hgt
    · by_cases hsp : decodeLE sp = 50
      · simp [controlIteration, readChar, htr, hdr, hlt, hsp, countEvents]
      · cases htw : tprops.writable with
        | true =>
          simp [controlIteration, readChar, htr, hdr, htw, hlt, hsp,
            decodeLE_new_target_bytes, countEvents]
        | false =>
          simp [controlIteration, readChar, htr, hdr, htw, hlt, hsp,
            countEvents, isWriteAttempt]
    · simp [controlIteration, readChar, htr, hdr, heq, countEvents]
    · have hnl : ¬ decodeLE dk < 40 := by linarith
      by_cases hsp : decodeLE sp = 0
      · simp [controlIteration, readChar, htr, hdr, hgt, hnl, hsp, countEvents]
      · simp [controlIteration, readChar, htr, hdr, hgt, hnl, hsp,
          decodeLE_off_bytes, countEvents]

/-- Witness for C1 (amended): measured 35.00 (bytes `AC 0D`), device
setpoint 30.00 (bytes `B8 0B`), a readable and writable setpoint
characteristic: the iteration issues exactly the heating-on write. -/
theorem c1_witness :
    (controlIteration ⟨true, true, false⟩ ⟨true, false, false⟩ true true true
        [0xB8, 0x0B] [0xAC, 0x0D]).events
      = [LoopEvent.writeAttempt new_target_bytes true] ∧
    decodeLE new_target_bytes = 50 :=
  (c1_hysteresis_control ⟨true, true, false⟩ ⟨true, false, false⟩
      [0xB8, 0x0B] [0xAC, 0x0D] rfl rfl).1
    (by norm_num [decodeLE, decodeTemp, intFromBytes])
    (by norm_num [decodeLE, decodeTemp, intFromBytes])
    rfl

/-- Claim C9: the two fixed payloads the loop writes decode, under the
loop's own little-endian read path, to exactly the guard constants
(`88 13` is 50.0, `00 00` is 0.0); hence, the device storing written bytes
verbatim, the iteration after a successful write reads back a setpoint
equal to the guard value and performs no further write. -/
theorem c9_guard_bytes (tprops dprops : CharProps) (dk : List ℕ) :
    decodeLE new_target_bytes = 50 ∧ decodeLE off_bytes = 0 ∧
    (decodeLE dk < 40 →
      countEvents isWriteAttempt
        (controlIteration tprops dprops true true true new_target_bytes dk).events = 0) ∧
    (40 < decodeLE dk →
      countEvents isWriteAttempt
        (controlIteration tprops dprops true true true off_bytes dk).events = 0) := by
  refine ⟨decodeLE_new_target_bytes, decodeLE_off_bytes, ?_, ?_⟩
  · intro h
    by_cases htr : tprops.readable <;> by_cases hdr : dprops.readable <;>
      simp [controlIteration, readChar, htr, hdr, h, decodeLE_new_target_bytes, countEvents]
  · intro h
    have hnl : ¬ decodeLE dk < 40 := by linarith
    by_cases htr : tprops.readable <;> by_cases hdr : dprops.readable <;>
      simp [controlIteration, readChar, htr, hdr, h, hnl, decodeLE_off_bytes, countEvents]

/-- Witness for C9: with measured 35.00 the iteration after the heating-on
write (device now holding `88 13`) performs no write. -/
theorem c9_witness :
    countEvents isWriteAttempt
      (controlIteration ⟨true, true, false⟩ ⟨true, true, false⟩ true true true
        new_target_bytes [0xAC, 0x0D]).events = 0 :=
  (c9_guard_bytes ⟨true, true, false⟩ ⟨true, true, false⟩ [0xAC, 0x0D]).2.2.1
    (by norm_num [decodeLE, decodeTemp, intFromBytes])

/-- Claim C3 counterexample: in a session whose characteristic set lacks
the setpoint role (`hasTarget = false`), `connect_and_monitor` prints the
warning once but returns before the monitoring loop: the loop does not run
at all, contradicting "the control loop still runs (without writing)". -/
theorem c3_counterexample :
    (connect_and_monitor ⟨true, true, false, true, LoopEnd.disconnected⟩).warnings = 1 ∧
    (connect_and_monitor ⟨true, true, false, true, LoopEnd.disconnected⟩).loopRan = false := by
  decide

/-- Claim C3 (amended): when the setpoint characteristic is absent, the
session is not treated as a failure — the degraded-capability warning is
emitted exactly once and the function returns success — but the control
loop never runs; the session ends immediately instead of looping without
writes. -/
theorem c3_amended_missing_setpoint (hasDrink : Bool) (e : LoopEnd) :
    (connect_and_monitor ⟨true, true, false, hasDrink, e⟩).warnings = 1 ∧
    (connect_and_monitor ⟨true, true, false, hasDrink, e⟩).loopRan = false ∧
    (connect_and_monitor ⟨true, true, false, hasDrink, e⟩).returned = true := by
  simp [connect_and_monitor]

/-- Witness for C3 (amended) at a concrete session configuration. -/
theorem c3_witness :
    (connect_and_monitor ⟨true, true, false, true, LoopEnd.cancelled⟩).warnings = 1 ∧
    (connect_and_monitor ⟨true, true, false, true, LoopEnd.cancelled⟩).loopRan = false ∧
    (connect_and_monitor ⟨true, true, false, true, LoopEnd.cancelled⟩).returned = true :=
  c3_amended_missing_setpoint true LoopEnd.cancelled

/-- Claim C4: a failed connect attempt performs zero disconnects; a
successful connect performs exactly one disconnect, whether the loop ended
normally, by transport error, or by cancellation (the `async with` block
guarantees `__aexit__` runs exactly once after a successful `__aenter__`). -/
theorem c4_disconnect_exactly_once (cfg : SessionConfig) :
    (cfg.enterOk = false → (connect_and_monitor cfg).disconnects = 0) ∧
    (cfg.enterOk = true → (connect_and_monitor cfg).disconnects = 1) := by
  obtain ⟨e, c, t, d, l⟩ := cfg
  cases e <;> cases c <;> cases t <;> cases d <;> cases l <;>
    simp [connect_and_monitor]

/-- Witness for C4: a failed connect and a connect followed by a transport
error during the loop. -/
theorem c4_witness :
    (connect_and_monitor ⟨false, false, false, false, LoopEnd.disconnected⟩).disconnects = 0 ∧
    (connect_and_monitor ⟨true, true, true, true, LoopEnd.transportError⟩).disconnects = 1 :=
  ⟨(c4_disconnect_exactly_once ⟨false, false, false, false, LoopEnd.disconnected⟩).1 rfl,
   (c4_disconnect_exactly_once ⟨true, true, true, true, LoopEnd.transportError⟩).2 rfl⟩

/-! Concrete strings for the discovery-ledger counterexample. -/

/-- First advertised name of the repeated sighting. -/
def nameX : String := "X"

/-- Second advertised name of the repeated sighting. -/
def nameY : String := "Y"

/-- Repeated peripheral address. -/
def addrA : String := "AA"

/-- Claim C5 counterexample: observing address `AA` first as name `X` at
time 0 and again as name `Y` at time 10 leaves exactly one entry — but it
bears the name and timestamp of the FIRST sighting: repeat sightings are
ignored entirely, so the entry does not carry the latest name (and the
entry has no last-seen field to update). -/
theorem c5_counterexample :
    (addDevice 10 (addDevice 0 ⟨[], []⟩ ⟨some nameX, addrA⟩) ⟨some nameY, addrA⟩).devices
      = [⟨nameX, addrA, 0⟩] ∧ nameX ≠ nameY := by
  constructor
  · decide
  · decide

/-- A sighting of an already-seen address leaves the scan state untouched. -/
theorem addDevice_seen (t : ℕ) (st : ScanState) (d : AdvDevice)
    (h : d.address ∈ st.seen) : addDevice t st d = st := by
  simp [addDevice, h]

/-- A sighting of a fresh address appends one entry and records the address. -/
theorem addDevice_fresh (t : ℕ) (st : ScanState) (d : AdvDevice)
    (h : d.address ∉ st.seen) :
    addDevice t st d =
      ⟨st.devices ++ [⟨pyNameOr d.name unknownName, d.address, t⟩],
        st.seen ++ [d.address]⟩ := by
  simp [addDevice, h]

/-- Claim C5 (amended): two sightings of the same previously-unseen
peripheral address produce exactly one ledger entry, bearing the name and
the scan timestamp of the EARLIEST sighting; the repeat sighting is
ignored completely (no name refresh, no timestamp update). -/
theorem c5_amended_first_sighting_wins (st : ScanState) (d1 d2 : AdvDevice)
    (t1 t2 : ℕ) (haddr : d2.address = d1.address) (hnew : d1.address ∉ st.seen) :
    (addDevice t2 (addDevice t1 st d1) d2).devices
      = st.devices ++ [⟨pyNameOr d1.name unknownName, d1.address, t1⟩] ∧
    (addDevice t2 (addDevice t1 st d1) d2).seen = st.seen ++ [d1.address] ∧
    ((∀ e ∈ st.devices, e.address ≠ d1.address) →
      ((addDevice t2 (addDevice t1 st d1) d2).devices.filter
        (fun e => e.address == d1.address)).length = 1) := by
  have h1 : addDevice t1 st d1 =
      ⟨st.devices ++ [⟨pyNameOr d1.name unknownName, d1.address, t1⟩],
        st.seen ++ [d1.address]⟩ := addDevice_fresh t1 st d1 hnew
  have h2 : d2.address ∈ (addDevice t1 st d1).seen := by
    rw [h1, haddr]
    simp
  have h3 : addDevice t2 (addDevice t1 st d1) d2 = addDevice t1 st d1 :=
    addDevice_seen t2 _ d2 h2
  refine ⟨by rw [h3, h1], by rw [h3, h1], ?_⟩
  intro hfresh
  rw [h3, h1]
  simp only [List.filter_append, List.length_append]
  have hl : (st.devices.filter (fun e => e.address == d1.address)) = [] := by
    rw [List.filter_eq_nil_iff]
    intro e he
    simp [hfresh e he]
  rw [hl]
  simp

/-- Witness for C5 (amended) at the concrete repeated sighting. -/
theorem c5_witness :
    (addDevice 10 (addDevice 0 ⟨[], []⟩ ⟨some nameX, addrA⟩) ⟨some nameY, addrA⟩).seen
      = [] ++ [addrA] :=
  (c5_amended_first_sighting_wins ⟨[], []⟩ ⟨some nameX, addrA⟩ ⟨some nameY, addrA⟩
      0 10 rfl (by decide)).2.1

/-- Claim C6 counterexample: three consecutive failing write attempts for
the same desired setpoint (measured 35.00, device setpoint stuck at 30.00)
produce zero persistent-fault events — the script reports each failure
individually (three failure notices) and has no escalation, so "exactly
one PersistentFault condition is reported" is false. -/
theorem c6_counterexample :
    countEvents isPersistentFault
      (runIterations ⟨true, true, false⟩ ⟨true, true, false⟩ [0xAC, 0x0D]
        [(true, true, false), (true, true, false), (true, true, false)]
        [0xB8, 0x0B]) = 0 ∧
    countEvents isFailureNotice
      (runIterations ⟨true, true, false⟩ ⟨true, true, false⟩ [0xAC, 0x0D]
        [(true, true, false), (true, true, false), (true, true, false)]
        [0xB8, 0x0B]) = 3 := by
  norm_num [runIterations, controlIteration, readChar, countEvents,
    isPersistentFault, isFailureNotice, decodeLE, decodeTemp, intFromBytes]

/-- Claim C6 (amended): three consecutive write failures for the same
desired setpoint yield three write attempts and three individual failure
notices — the loop keeps running, one attempt per iteration — and no
persistent-fault event at all (the script has no escalation after
repeated failures). -/
theorem c6_amended_three_failures (tprops dprops : CharProps) (sp dk : List ℕ)
    (htr : tprops.readable = true) (hdr : dprops.readable = true)
    (htw : tprops.writable = true)
    (hlt : decodeLE dk < 40) (hne : decodeLE sp ≠ 50) :
    countEvents isWriteAttempt (runIterations tprops dprops dk
      [(true, true, false), (true, true, false), (true, true, false)] sp) = 3 ∧
    countEvents isFailureNotice (runIterations tprops dprops dk
      [(true, true, false), (true, true, false), (true, true, false)] sp) = 3 ∧
    countEvents isPersistentFault (runIterations tprops dprops dk
      [(true, true, false), (true, true, false), (true, true, false)] sp) = 0 := by
  have hstep : controlIteration tprops dprops true true false sp dk =
      ⟨[LoopEvent.writeAttempt new_target_bytes true, LoopEvent.writeFailureNotice],
        sp⟩ := by
    simp [controlIteration, readChar, htr, hdr, htw, hlt, hne]
  simp [runIterations, hstep, countEvents, isWriteAttempt, isFailureNotice,
    isPersistentFault]

/-- Witness for C6 (amended) at the concrete stuck-setpoint scenario. -/
theorem c6_witness :
    countEvents isWriteAttempt
      (runIterations ⟨true, true, true⟩ ⟨true, true, true⟩ [0xAC, 0x0D]
        [(true, true, false), (true, true, false), (true, true, false)]
        [0xB8, 0x0B]) = 3 :=
  (c6_amended_three_failures ⟨true, true, true⟩ ⟨true, true, true⟩
      [0xB8, 0x0B] [0xAC, 0x0D] rfl rfl rfl
      (by norm_num [decodeLE, decodeTemp, intFromBytes])
      (by norm_num [decodeLE, decodeTemp, intFromBytes])).1

/-- Claim C8 counterexample: with a setpoint characteristic supporting
neither acknowledged nor unacknowledged writes (measured 45.00, device
setpoint 30.00), the heating-off path still issues an acknowledged write —
the write is not skipped and no modality choice happens, contradicting
"when neither modality is supported the write is skipped". -/
theorem c8_counterexample :
    (controlIteration ⟨true, false, false⟩ ⟨true, false, false⟩ true true true
        [0xB8, 0x0B] [0x94, 0x11]).events
      = [LoopEvent.writeAttempt off_bytes true] ∧
    (⟨true, false, false⟩ : CharProps).writable = false ∧
    (⟨true, false, false⟩ : CharProps).writableNoResp = false := by
  refine ⟨?_, rfl, rfl⟩
  norm_num [controlIteration, readChar, decodeLE, decodeTemp, intFromBytes]

/-- Claim C8 (amended): the heating-on write is issued as an acknowledged
write only when the characteristic lists the acknowledged-write property;
otherwise it is skipped with a no-write-support notice emitted on every
such iteration (never an unacknowledged fallback); the heating-off write
is issued unconditionally as an acknowledged write without consulting the
properties at all. -/
theorem c8_amended_write_modality (tprops dprops : CharProps) (sp dk : List ℕ)
    (w : Bool) (htr : tprops.readable = true) (hdr : dprops.readable = true) :
    (decodeLE dk < 40 → decodeLE sp ≠ 50 → tprops.writable = true →
      (controlIteration tprops dprops true true true sp dk).events
        = [LoopEvent.writeAttempt new_target_bytes true]) ∧
    (decodeLE dk < 40 → decodeLE sp ≠ 50 → tprops.writable = false →
      (controlIteration tprops dprops true true w sp dk).events
        = [LoopEvent.noWriteSupportNotice]) ∧
    (40 < decodeLE dk → decodeLE sp ≠ 0 →
      (controlIteration tprops dprops true true true sp dk).events
        = [LoopEvent.writeAttempt off_bytes true]) ∧
    (decodeLE dk < 40 → decodeLE sp ≠ 50 → tprops.writable = false →
      countEvents isNoSupportNotice (runIterations tprops dprops dk
        [(true, true, w), (true, true, w)] sp) = 2) := by
  refine ⟨?_, ?_, ?_, ?_⟩
  · intro h1 h2 h3
    simp [controlIteration, readChar, htr, hdr, h1, h2, h3]
  · intro h1 h2 h3
    simp [controlIteration, readChar, htr, hdr, h1, h2, h3]
  · intro h1 h2
    have hnl : ¬ decodeLE dk < 40 := by linarith
    simp [controlIteration, readChar, htr, hdr, h1, h2, hnl]
  · intro h1 h2 h3
    have hstep : controlIteration tprops dprops true true w sp dk =
        ⟨[LoopEvent.noWriteSupportNotice], sp⟩ := by
      simp [controlIteration, readChar, htr, hdr, h1, h2, h3]
    simp [runIterations, hstep, countEvents, isNoSupportNotice]

/-- Witness for C8 (amended): two iterations with measured 35.00, setpoint
30.00 and a non-writable setpoint characteristic emit the notice twice. -/
theorem c8_witness :
    countEvents isNoSupportNotice
      (runIterations ⟨true, false, false⟩ ⟨true, false, false⟩ [0xAC, 0x0D]
        [(true, true, true), (true, true, true)] [0xB8, 0x0B]) = 2 :=
  (c8_amended_write_modality ⟨true, false, false⟩ ⟨true, false, false⟩
      [0xB8, 0x0B] [0xAC, 0x0D] true rfl rfl).2.2.2
    (by norm_num [decodeLE, decodeTemp, intFromBytes])
    (by norm_num [decodeLE, decodeTemp, intFromBytes])
    rfl

/-- Any selection the menu loop returns is an element of the device list:
both selection sites (`Enter` at line 121, digit keys at line 135) are
bound-checked before indexing. -/
theorem menuLoop_mem {α : Type} (devs : List α) (keys : List MenuKey) :
    ∀ (i : ℤ) (x : α), menuLoop devs i keys = some x → x ∈ devs := by
  induction keys with
  | nil =>
    intro i x h
    simp [menuLoop] at h
  | cons k ks ih =>
    intro i x h
    cases k with
    | quit => simp [menuLoop] at h
    | enter =>
      simp only [menuLoop] at h
      split_ifs at h
      · exact List.get?_mem h
      · exact ih i x h
    | digit d =>
      simp only [menuLoop] at h
      split_ifs at h
      · exact List.get?_mem h
      · exact ih i x h
    | up =>
      simp only [menuLoop] at h
      exact ih _ x h
    | down =>
      simp only [menuLoop] at h
      exact ih _ x h
    | refresh =>
      simp only [menuLoop] at h
      exact ih _ x h
    | other =>
      simp only [menuLoop] at h
      exact ih _ x h

/-- Claim C10: over a non-empty device list the navigation step keeps the
selected index inside `[0, len - 1]` (clamping at both ends), and any
selection `interactive_menu` confirms is an element of the device list. -/
theorem c10_menu_bounds {α : Type} (devs : List α) (hne : devs ≠ []) :
    (∀ (i : ℤ) (k : MenuKey), 0 ≤ i → i < (devs.length : ℤ) →
      0 ≤ navStep devs.length i k ∧ navStep devs.length i k < (devs.length : ℤ)) ∧
    (∀ (keys : List MenuKey) (x : α), interactive_menu devs keys = some x → x ∈ devs) := by
  have hlen : 1 ≤ (devs.length : ℤ) := by
    have := List.length_pos.mpr hne
    omega
  refine ⟨?_, ?_⟩
  · intro i k h0 h1
    cases k <;> simp only [navStep] <;> omega
  · intro keys x h
    have hemp : devs.isEmpty = false := by
      simp [List.isEmpty_iff, hne]
    rw [interactive_menu, hemp] at h
    exact menuLoop_mem devs keys 0 x (by simpa using h)

/-- Witness for C10: pressing down then Enter over a two-element list
selects the second element, a member of the list. -/
theorem c10_witness : (20 : ℕ) ∈ [10, 20] :=
  (c10_menu_bounds [10, 20] (by decide)).2 [MenuKey.down, MenuKey.enter] 20 (by decide)
